import Mathlib

/-!
# Verification of the local-auth subsystem of Bau-Structura

Shallow embedding of the authentication / session-authorization core
(password hashing and verification, login verify callback, registration,
password-reset request and confirmation, role gates, session
deserialization) together with proofs of the specified properties.

JavaScript strings are modelled as `List Char`.  The `crypto.scrypt`
key-derivation function is kept abstract: every definition that uses it
takes a `scryptFn : List Char → List Char → List Nat` argument standing
for `scrypt(password, salt, 64)` (a list of bytes).  Randomness
(`randomBytes`, `Math.random`, generated identifiers and tokens) is
passed in as explicit arguments.
-/

namespace BauStructura

/-- JavaScript truthiness of an optional string: `undefined`, `null` and
the empty string are falsy. -/
def jsTruthy : Option (List Char) → Bool
  | none => false
  | some s => !s.isEmpty

/-- One hex digit, lowercase, as produced by `Buffer.toString("hex")`:
`0`–`9` for values below ten, `a`–`f` above. -/
def hexDigit (n : Nat) : Char :=
  if n < 10 then Char.ofNat (48 + n) else Char.ofNat (87 + n)

/-- `Buffer.toString("hex")`: each byte becomes two lowercase hex digits. -/
def hexEncode : List Nat → List Char
  | [] => []
  | b :: bs => hexDigit (b / 16) :: hexDigit (b % 16) :: hexEncode bs

/-- Value of a hex character, accepting upper and lower case, as in
Node's hex decoder. -/
def hexVal (c : Char) : Option Nat :=
  if 48 ≤ c.toNat ∧ c.toNat ≤ 57 then some (c.toNat - 48)
  else if 97 ≤ c.toNat ∧ c.toNat ≤ 102 then some (c.toNat - 87)
  else if 65 ≤ c.toNat ∧ c.toNat ≤ 70 then some (c.toNat - 55)
  else none

/-- `Buffer.from(s, "hex")`: decode pairs of hex digits from the front,
stopping (without an error) at the first character pair that is not valid
hex or at a trailing odd character. -/
def hexDecode : List Char → List Nat
  | c1 :: c2 :: rest =>
    match hexVal c1, hexVal c2 with
    | some h, some l => (16 * h + l) :: hexDecode rest
    | _, _ => []
  | _ => []

/-- `s.split(".")` on a JavaScript string: the list of maximal
dot-free segments; the empty string splits to `[""]`. -/
def splitOnDot : List Char → List (List Char)
  | [] => [[]]
  | c :: rest =>
    if c = '.' then [] :: splitOnDot rest
    else
      match splitOnDot rest with
      | [] => [[c]]
      | p :: ps => (c :: p) :: ps

/-- Errors a `comparePasswords` call can throw: `scrypt` with an
`undefined` salt raises a type error, `timingSafeEqual` on buffers of
different byte lengths raises a range error. -/
inductive JsError
  | typeError
  | rangeError
  deriving DecidableEq, Repr

/--
`hashPassword` (local-auth module, lines 19–23): the 16 random bytes of
the salt are an explicit argument; the result is
`scrypt(password, saltHex, 64).toString("hex") + "." + saltHex`.
-/
def hashPassword (scryptFn : List Char → List Char → List Nat)
    (saltBytes : List Nat) (password : List Char) : List Char :=
  let salt := hexEncode saltBytes
  let buf := scryptFn password salt
  hexEncode buf ++ '.' :: salt

/--
`comparePasswords` (local-auth module, lines 25–30):
`const [hashed, salt] = stored.split(".")`, decode `hashed` as hex,
re-derive with `scrypt(supplied, salt, 64)`, and compare the buffers with
`timingSafeEqual`.  When the split yields no second component the salt is
`undefined` and `scrypt` throws; when the two buffers differ in length
`timingSafeEqual` throws.
-/
def comparePasswords (scryptFn : List Char → List Char → List Nat)
    (supplied stored : List Char) : Except JsError Bool :=
  let parts := splitOnDot stored
  let hashed := parts.headD []
  match parts[1]? with
  | none => .error .typeError
  | some salt =>
    let hashedBuf := hexDecode hashed
    let suppliedBuf := scryptFn supplied salt
    if hashedBuf.length = suppliedBuf.length then .ok (hashedBuf = suppliedBuf)
    else .error .rangeError

/-! ## Data model and storage collaborator -/

/-- The persisted user record (`users` table fields read by the auth
core).  `role` is a plain string as in the code (`"user"`, `"manager"`,
`"admin"`); `password` and the SFTP fields are nullable. -/
structure User where
  id : List Char
  email : List Char
  password : Option (List Char)
  role : List Char
  firstName : List Char
  lastName : List Char
  licenseType : List Char
  privacyConsent : Bool
  emailNotificationsEnabled : Bool
  sftpHost : Option (List Char)
  sftpUsername : Option (List Char)
  deriving DecidableEq, Repr

/-- The backing principals collection, keyed by `id`. -/
abbrev Store := List User

/-- Lowercasing for the case-insensitive email key. -/
def toLowerStr (s : List Char) : List Char := s.map Char.toLower

/-- Modelled from the spec: `storage.getUser(id)` — the implementation of
the storage module is not under `src/`; the spec requires a principals
collection keyed by `id`. -/
def getUser (store : Store) (id : List Char) : Option User :=
  store.find? (fun u => u.id = id)

/-- Modelled from the spec: `storage.getUserByEmail(email)` — the storage
module is not under `src/`; the spec requires a unique index on
lowercased email, i.e. a case-insensitive lookup key. -/
def getUserByEmail (store : Store) (email : List Char) : Option User :=
  store.find? (fun u => toLowerStr u.email = toLowerStr email)

/-- Modelled from the spec: `storage.upsertUser(data)` — the storage
module is not under `src/`; an upsert replaces the record with the same
`id` or inserts a new one. -/
def upsertUser (store : Store) (u : User) : Store :=
  if store.any (fun v => v.id = u.id) then
    store.map (fun v => if v.id = u.id then u else v)
  else store ++ [u]

/-- Modelled from the spec: `storage.updateUser(id, {password})` — the
storage module is not under `src/`; the handler only ever updates the
password field here. -/
def updateUserPassword (store : Store) (id : List Char)
    (newPassword : List Char) : Store :=
  store.map (fun v => if v.id = id then { v with password := some newPassword } else v)

/-! ## Authenticator: LocalStrategy verify callback, session
deserialization, register / login / current-user handlers -/

/-- Outcome of the passport `LocalStrategy` verify callback:
`done(null, false, {message})`, `done(null, user)`, or `done(error)`. -/
inductive VerifyResult
  | fail (message : List Char)
  | ok (user : User)
  | err
  deriving DecidableEq, Repr

/--
The `LocalStrategy` verify callback (local-auth module, lines 61–82):
look the user up by email; `done(null, false, {message: "Invalid
credentials"})` when absent or without a (truthy) password; otherwise
compare; a thrown comparison error reaches the `catch` and becomes
`done(error)`.
-/
def verifyCallback (scryptFn : List Char → List Char → List Nat)
    (store : Store) (email password : List Char) : VerifyResult :=
  match getUserByEmail store email with
  | none => .fail "Invalid credentials".data
  | some user =>
    if jsTruthy user.password then
      match comparePasswords scryptFn password (user.password.getD []) with
      | .error _ => .err
      | .ok false => .fail "Invalid credentials".data
      | .ok true => .ok user
    else .fail "Invalid credentials".data

/--
`passport.deserializeUser` (local-auth module, lines 88–99): the stored
session value is the user id; `storage.getUser` may fail
(`Except.error`) or find nothing, and both cases call
`done(null, false)`, i.e. resolve to no authenticated principal.
-/
def deserializeUser (g : List Char → Except Unit (Option User))
    (id : List Char) : Option User :=
  match g id with
  | .error _ => none
  | .ok none => none
  | .ok (some u) => some u

/-- Response of `GET /api/auth/user` (lines 153–159). -/
inductive AuthUserResult
  | ok (user : User)
  | unauthenticated
  deriving DecidableEq, Repr

/-- `GET /api/auth/user` handler: 200 with the user when the request is
authenticated, 401 otherwise. -/
def authUserHandler (principal : Option User) : AuthUserResult :=
  match principal with
  | some u => .ok u
  | none => .unauthenticated

/-- Response of `POST /api/auth/register` (lines 106–142). -/
inductive RegisterResult
  | duplicate
  | success (user : User)
  deriving DecidableEq, Repr

/--
`POST /api/auth/register` handler (lines 106–142): reject with 400
"User already exists" when `getUserByEmail` finds an account; otherwise
hash the password, `upsertUser` a new record with the generated id and
role `"user"`, and log the new user in (`success u` carries the session
principal).  The generated id and the salt randomness are explicit
arguments.
-/
def registerHandler (scryptFn : List Char → List Char → List Nat)
    (saltBytes : List Nat) (genId : List Char) (store : Store)
    (email password firstName lastName : List Char) :
    RegisterResult × Store :=
  match getUserByEmail store email with
  | some _ => (.duplicate, store)
  | none =>
    let hashedPassword := hashPassword scryptFn saltBytes password
    let u : User :=
      { id := genId
        email := email
        firstName := firstName
        lastName := lastName
        password := some hashedPassword
        role := "user".data
        licenseType := []
        privacyConsent := true
        emailNotificationsEnabled := true
        sftpHost := none
        sftpUsername := none }
    (.success u, upsertUser store u)

/-! ## Password-reset request and confirmation handlers -/

/-- The JSON body a `POST /api/auth/forgot-password` success response
carries: always the same message; the generated reset token is included
whenever the account exists (`// For demo purposes, return the token`). -/
structure ForgotResponse where
  status : Nat
  message : List Char
  resetToken : Option (List Char)
  deriving DecidableEq, Repr

/--
`POST /api/auth/forgot-password` handler (lines 162–195): 400 when the
email is missing; otherwise look the account up; when absent, answer 200
with the generic message; when present, generate a token (explicit
argument, standing for the `Math.random`/`Date.now` string) and answer
200 with the same message plus the `resetToken` field.  No storage write
happens on either path (the token is only logged, never persisted), so
the store is returned unchanged.
-/
def forgotPasswordHandler (store : Store) (email : Option (List Char))
    (genToken : List Char) : ForgotResponse × Store :=
  if ¬ jsTruthy email then
    (⟨400, "E-Mail-Adresse ist erforderlich".data, none⟩, store)
  else
    match getUserByEmail store (email.getD []) with
    | none =>
      (⟨200, "Falls die E-Mail-Adresse registriert ist, wurde ein Reset-Link gesendet.".data,
        none⟩, store)
    | some _ =>
      (⟨200, "Falls die E-Mail-Adresse registriert ist, wurde ein Reset-Link gesendet.".data,
        some genToken⟩, store)

/-- Response of `POST /api/auth/reset-password` (lines 198–227). -/
inductive ResetResponse
  | missingFields
  | invalidLink
  | success
  deriving DecidableEq, Repr

/--
`POST /api/auth/reset-password` handler (lines 198–227): 400 when
`email`, `newPassword` or `resetToken` is missing; otherwise look the
account up by email (400 "Ungültiger Reset-Link" when absent), hash the
new password and update the stored password.  The reset token itself is
never looked up, compared or consumed (`// For now, we'll accept any
token for demo purposes`).
-/
def resetPasswordHandler (scryptFn : List Char → List Char → List Nat)
    (saltBytes : List Nat) (store : Store)
    (email newPassword resetToken : Option (List Char)) :
    ResetResponse × Store :=
  if ¬ (jsTruthy email ∧ jsTruthy newPassword ∧ jsTruthy resetToken) then
    (.missingFields, store)
  else
    match getUserByEmail store (email.getD []) with
    | none => (.invalidLink, store)
    | some user =>
      let hashedPassword := hashPassword scryptFn saltBytes (newPassword.getD [])
      (.success, updateUserPassword store user.id hashedPassword)

/-! ## Authorization gates and admin user provisioning -/

/-- Outcome of a middleware gate. -/
inductive GateResult
  | unauthorized
  | forbidden
  | next
  deriving DecidableEq, Repr

/--
The `isAdmin` middleware (routes module, lines 1082–1097): 401 without a
request user id, then a fresh `storage.getUser` lookup; 403 unless the
looked-up user exists and has role exactly `"admin"`.
-/
def isAdminGate (store : Store) (reqUserId : Option (List Char)) : GateResult :=
  match reqUserId with
  | none => .unauthorized
  | some uid =>
    match getUser store uid with
    | none => .forbidden
    | some user => if user.role = "admin".data then .next else .forbidden

/-- Outcome of the `GET /api/sftp/files` handler up to the mock listing. -/
inductive SftpResult
  | forbidden
  | configIncomplete
  | files
  deriving DecidableEq, Repr

/--
`GET /api/sftp/files` handler (routes module, lines 94–105ff): after
`isAuthenticated`, re-load the user; 403 when `user?.role === "user"`;
then 400 when `!user?.sftpHost || !user?.sftpUsername`; otherwise the
mock listing is returned (abstracted as `files`).
-/
def sftpFilesHandler (store : Store) (userId : List Char) : SftpResult :=
  let user := getUser store userId
  if (user.map User.role) = some "user".data then .forbidden
  else if ¬ (jsTruthy (user.bind User.sftpHost) ∧ jsTruthy (user.bind User.sftpUsername)) then
    .configIncomplete
  else .files

/-- The fixed character set of `generateSecurePassword`. -/
def securePasswordCharset : List Char :=
  "abcdefghijklmnopqrstuvwxyzABCDEFGHIJKLMNOPQRSTUVWXYZ0123456789!@#$%&*".data

/--
`generateSecurePassword` (routes module, lines 1111–1118): twelve
characters drawn from the charset; the twelve `Math.random` draws are an
explicit argument of indices into the charset.
-/
def generateSecurePassword (draws : List Nat) : List Char :=
  (draws.take 12).map (fun i => securePasswordCharset.getD (i % securePasswordCharset.length) 'a')

/-- Response of `POST /api/admin/users` (lines 1121–1179). -/
inductive AdminCreateResult
  | badRequest
  | conflict
  | created (user : User)
  deriving DecidableEq, Repr

/--
`POST /api/admin/users` handler (routes module, lines 1121–1179): 400
when username or email is missing, 409 when `storage.getUser(username)`
finds an existing record; otherwise build the user record with
`id := username`, `firstName := username`, `role || 'user'`,
`licenseType || 'basic'` and — verbatim, with no call to the hasher —
`password := temporaryPassword` (`// Store password temporarily (in real
app, hash it)`), and `upsertUser` it.  The response strips the password;
the persisted record keeps it.
-/
def adminCreateUserHandler (store : Store)
    (username email : Option (List Char)) (role licenseType : Option (List Char))
    (draws : List Nat) : AdminCreateResult × Store :=
  if ¬ (jsTruthy username ∧ jsTruthy email) then (.badRequest, store)
  else
    match getUser store (username.getD []) with
    | some _ => (.conflict, store)
    | none =>
      let temporaryPassword := generateSecurePassword draws
      let userData : User :=
        { id := username.getD []
          email := email.getD []
          role := if jsTruthy role then role.getD [] else "user".data
          licenseType := if jsTruthy licenseType then licenseType.getD [] else "basic".data
          firstName := username.getD []
          lastName := []
          emailNotificationsEnabled := true
          password := some temporaryPassword
          privacyConsent := false
          sftpHost := none
          sftpUsername := none }
      (.created userData, upsertUser store userData)

/-- A concrete stand-in for `scrypt(·, ·, 64)` used to evaluate the
handlers on closed inputs: 64 bytes determined by the lengths of
password and salt.  (The real scrypt is abstract in all theorems.) -/
def constScrypt : List Char → List Char → List Nat :=
  fun p s => (p.length + s.length) % 256 :: List.replicate 63 0

/-- A concrete well-formed stored hash record (64 bytes of `0x01`, salt
`0x00 0x00`) that `constScrypt` does not reproduce, so verification
against it returns `ok false`. -/
def demoStored : List Char :=
  hexEncode (List.replicate 64 1) ++ '.' :: "0000".data

/-- A concrete registered account used to evaluate the handlers. -/
def demoAlice : User :=
  { id := "u1".data
    email := "alice@example.com".data
    password := some demoStored
    role := "user".data
    firstName := "Alice".data
    lastName := []
    licenseType := "basic".data
    privacyConsent := true
    emailNotificationsEnabled := true
    sftpHost := none
    sftpUsername := none }

/-- A concrete manager account with SFTP configuration. -/
def demoManager : User :=
  { demoAlice with
    id := "m1".data
    email := "mona@example.com".data
    role := "manager".data
    sftpHost := some "sftp.example.com".data
    sftpUsername := some "mona".data }

/-- A concrete admin account. -/
def demoAdmin : User :=
  { demoAlice with
    id := "a1".data
    email := "ada@example.com".data
    role := "admin".data }

/-! ## Helper lemmas on hex encoding and dot-splitting -/

theorem hexVal_hexDigit : ∀ n < 16, hexVal (hexDigit n) = some n := by decide

theorem hexDigit_ne_dot : ∀ n < 16, hexDigit n ≠ '.' := by decide

theorem dot_not_mem_hexEncode (bs : List Nat) (hb : ∀ b ∈ bs, b < 256) :
    '.' ∉ hexEncode bs := by
  induction bs with
  | nil => simp [hexEncode]
  | cons b bs ih =>
    have hblt : b < 256 := hb b (by simp)
    have h1 : b / 16 < 16 := by omega
    have h2 : b % 16 < 16 := Nat.mod_lt _ (by omega)
    simp only [hexEncode, List.mem_cons, not_or]
    refine ⟨?_, ?_, ih (fun x hx => hb x (by simp [hx]))⟩
    · exact fun h => hexDigit_ne_dot _ h1 h.symm
    · exact fun h => hexDigit_ne_dot _ h2 h.symm

theorem hexDecode_hexEncode (bs : List Nat) (hb : ∀ b ∈ bs, b < 256) :
    hexDecode (hexEncode bs) = bs := by
  induction bs with
  | nil => simp [hexEncode, hexDecode]
  | cons b bs ih =>
    have hblt : b < 256 := hb b (by simp)
    have h1 : b / 16 < 16 := by omega
    have h2 : b % 16 < 16 := Nat.mod_lt _ (by omega)
    simp only [hexEncode, hexDecode, hexVal_hexDigit _ h1, hexVal_hexDigit _ h2]
    rw [ih (fun x hx => hb x (by simp [hx]))]
    congr 1
    omega

theorem splitOnDot_no_dot (s : List Char) (h : '.' ∉ s) :
    splitOnDot s = [s] := by
  induction s with
  | nil => rfl
  | cons c s ih =>
    have hc : c ≠ '.' := fun hc => h (by simp [hc])
    have hs : '.' ∉ s := fun hs => h (by simp [hs])
    simp only [splitOnDot, if_neg hc, ih hs]

theorem splitOnDot_append (a b : List Char) (ha : '.' ∉ a) :
    splitOnDot (a ++ '.' :: b) = a :: splitOnDot b := by
  induction a with
  | nil => simp [splitOnDot]
  | cons c a ih =>
    have hc : c ≠ '.' := fun hc => ha (by simp [hc])
    have ha' : '.' ∉ a := fun h => ha (by simp [h])
    simp only [List.cons_append, splitOnDot, if_neg hc]
    rw [List.append_eq, ih ha']

theorem splitOnDot_hash (scryptFn : List Char → List Char → List Nat)
    (saltBytes : List Nat) (password : List Char)
    (hbytes : ∀ p s, ∀ b ∈ scryptFn p s, b < 256)
    (hsalt : ∀ b ∈ saltBytes, b < 256) :
    splitOnDot (hashPassword scryptFn saltBytes password) =
      [hexEncode (scryptFn password (hexEncode saltBytes)), hexEncode saltBytes] := by
  unfold hashPassword
  rw [splitOnDot_append _ _ (dot_not_mem_hexEncode _ (hbytes _ _)),
    splitOnDot_no_dot _ (dot_not_mem_hexEncode _ hsalt)]

/-! ## C5: hash/verify round-trip -/

/-- **C5.** Hashing round-trips with verification: for every password
`p` (and any salt randomness whose bytes are bytes, as `randomBytes`
produces, and any scrypt function producing byte output),
`comparePasswords p (hashPassword p) = ok true`: verification re-derives
the key from `p` and the salt stored in the record, and the derived
bytes equal the stored derived bytes. -/
theorem verify_hash_roundtrip (scryptFn : List Char → List Char → List Nat)
    (hbytes : ∀ p s, ∀ b ∈ scryptFn p s, b < 256)
    (saltBytes : List Nat) (hsalt : ∀ b ∈ saltBytes, b < 256)
    (p : List Char) :
    comparePasswords scryptFn p (hashPassword scryptFn saltBytes p) = .ok true := by
  have hsplit := splitOnDot_hash scryptFn saltBytes p hbytes hsalt
  simp only [comparePasswords, hsplit]
  simp [List.headD, hexDecode_hexEncode _ (hbytes _ _)]

/-- Witness for C5 at a concrete password, salt and scrypt stand-in. -/
theorem verify_hash_roundtrip_witness :
    comparePasswords constScrypt "correcthorse123".data
      (hashPassword constScrypt (List.replicate 16 7) "correcthorse123".data) = .ok true :=
  verify_hash_roundtrip constScrypt
    (by
      intro p s b hb
      simp [constScrypt, List.mem_replicate] at hb
      rcases hb with hb | ⟨-, hb⟩ <;> omega)
    (List.replicate 16 7)
    (by
      intro b hb
      simp [List.mem_replicate] at hb
      omega)
    "correcthorse123".data

/-! ## C9: structure of the hash record -/

/-- **C9.** `hashPassword` consumes a 16-byte random salt, derives a
64-byte key, and returns the single string
`derivedHex ++ "." ++ saltHex`; the dot delimiter occurs in neither hex
component, so the record splits back into exactly those two components,
which decode to 64 and 16 bytes respectively. -/
theorem hashPassword_structure (scryptFn : List Char → List Char → List Nat)
    (hlen : ∀ p s, (scryptFn p s).length = 64)
    (hbytes : ∀ p s, ∀ b ∈ scryptFn p s, b < 256)
    (saltBytes : List Nat) (hsaltlen : saltBytes.length = 16)
    (hsalt : ∀ b ∈ saltBytes, b < 256) (p : List Char) :
    hashPassword scryptFn saltBytes p
        = hexEncode (scryptFn p (hexEncode saltBytes)) ++ '.' :: hexEncode saltBytes
      ∧ splitOnDot (hashPassword scryptFn saltBytes p)
        = [hexEncode (scryptFn p (hexEncode saltBytes)), hexEncode saltBytes]
      ∧ (hexDecode (hexEncode (scryptFn p (hexEncode saltBytes)))).length = 64
      ∧ (hexDecode (hexEncode saltBytes)).length = 16
      ∧ '.' ∉ hexEncode (scryptFn p (hexEncode saltBytes))
      ∧ '.' ∉ hexEncode saltBytes := by
  refine ⟨rfl, splitOnDot_hash scryptFn saltBytes p hbytes hsalt, ?_, ?_, ?_, ?_⟩
  · rw [hexDecode_hexEncode _ (hbytes _ _), hlen]
  · rw [hexDecode_hexEncode _ hsalt, hsaltlen]
  · exact dot_not_mem_hexEncode _ (hbytes _ _)
  · exact dot_not_mem_hexEncode _ hsalt

/-- Witness for C9 at a concrete password, salt and scrypt stand-in. -/
theorem hashPassword_structure_witness :
    (hexDecode (hexEncode (constScrypt "pw".data (hexEncode (List.replicate 16 7))))).length = 64 :=
  ((hashPassword_structure constScrypt
    (by intro p s; simp [constScrypt])
    (by
      intro p s b hb
      simp [constScrypt, List.mem_replicate] at hb
      rcases hb with hb | ⟨-, hb⟩ <;> omega)
    (List.replicate 16 7) (by simp)
    (by
      intro b hb
      simp [List.mem_replicate] at hb
      omega)
    "pw".data).2.2).1

/-! ## C4: malformed stored records make verification throw -/

/-- **C4 counterexample.** The claim says verification returns `false`
and never throws on every malformed stored record.  On the malformed
record `"ab.00"` (derived-key component one byte instead of 64),
`timingSafeEqual` receives buffers of different lengths and
`comparePasswords` throws a range error instead of returning `false`. -/
theorem comparePasswords_throws_on_short_record :
    comparePasswords constScrypt "pw".data "ab.00".data = .error .rangeError := by
  rfl

/-- **C4 (amended).** `comparePasswords` throws exactly on the records
whose dot-split lacks a second component (salt `undefined`, `scrypt`
type error) or whose first component does not decode to a full 64-byte
buffer (`timingSafeEqual` range error); on all other records — malformed
or not — it returns a boolean, so "false, never throws" holds only for
those. -/
theorem comparePasswords_error_iff (scryptFn : List Char → List Char → List Nat)
    (hlen : ∀ p s, (scryptFn p s).length = 64) (supplied stored : List Char) :
    (∃ e, comparePasswords scryptFn supplied stored = .error e)
      ↔ ((splitOnDot stored)[1]? = none
          ∨ (hexDecode ((splitOnDot stored).headD [])).length ≠ 64) := by
  simp only [comparePasswords]
  cases h : (splitOnDot stored)[1]? with
  | none => simp
  | some salt =>
    simp only [hlen, List.headD_eq_head?]
    by_cases hL : (hexDecode ((splitOnDot stored).head?.getD [])).length = 64 <;>
      simp [hL]

/-- Witness for the amended C4 at a concrete malformed record without a
delimiter. -/
theorem comparePasswords_error_iff_witness :
    ∃ e, comparePasswords constScrypt "pw".data "deadbeef".data = .error e :=
  (comparePasswords_error_iff constScrypt (by intro p s; simp [constScrypt])
    "pw".data "deadbeef".data).mpr (Or.inl (by decide))

/-! ## C3: login failure causes are indistinguishable -/

/-- **C3.** The `LocalStrategy` verify callback yields the identical
`done(null, false, {message: "Invalid credentials"})` value both when no
account exists for the email and when the account exists but password
verification returns false — the two failure causes are
indistinguishable to the caller. -/
theorem login_failures_indistinguishable
    (scryptFn : List Char → List Char → List Nat)
    (store₁ : Store) (e₁ p₁ : List Char)
    (store₂ : Store) (e₂ p₂ : List Char) (u : User) (s : List Char)
    (h1 : getUserByEmail store₁ e₁ = none)
    (h2 : getUserByEmail store₂ e₂ = some u)
    (hpw : u.password = some s) (hs : s ≠ [])
    (hcmp : comparePasswords scryptFn p₂ s = .ok false) :
    verifyCallback scryptFn store₁ e₁ p₁ = verifyCallback scryptFn store₂ e₂ p₂
      ∧ verifyCallback scryptFn store₁ e₁ p₁ = .fail "Invalid credentials".data := by
  have hv1 : verifyCallback scryptFn store₁ e₁ p₁ = .fail "Invalid credentials".data := by
    simp [verifyCallback, h1]
  have hv2 : verifyCallback scryptFn store₂ e₂ p₂ = .fail "Invalid credentials".data := by
    simp [verifyCallback, h2, hpw, jsTruthy, hs, hcmp]
  exact ⟨hv1.trans hv2.symm, hv1⟩

set_option maxRecDepth 8192 in
/-- Witness for C3: an empty store versus a store holding `demoAlice`,
queried with a wrong password. -/
theorem login_failures_indistinguishable_witness :
    verifyCallback constScrypt [] "ghost@example.com".data "pw".data
        = verifyCallback constScrypt [demoAlice] "alice@example.com".data "wrong".data
      ∧ verifyCallback constScrypt [] "ghost@example.com".data "pw".data
        = .fail "Invalid credentials".data :=
  login_failures_indistinguishable constScrypt
    [] "ghost@example.com".data "pw".data
    [demoAlice] "alice@example.com".data "wrong".data
    demoAlice demoStored
    (by decide) (by decide) (by decide) (by decide) (by rfl)

/-! ## C8: session resolution fails closed -/

/-- **C8.** `passport.deserializeUser` composed with the
`GET /api/auth/user` handler fails closed: a dangling principal
reference (`getUser` finds nothing) or a storage error both resolve to
the unauthenticated response, and a session only resolves to a principal
the store actually returned. -/
theorem session_resolution_fails_closed
    (g : List Char → Except Unit (Option User)) (id : List Char) :
    (g id = .ok none → authUserHandler (deserializeUser g id) = .unauthenticated)
      ∧ (∀ e, g id = .error e → authUserHandler (deserializeUser g id) = .unauthenticated)
      ∧ (∀ u, deserializeUser g id = some u → g id = .ok (some u)) := by
  unfold deserializeUser authUserHandler
  rcases hg : g id with e | o
  · simp
  · rcases o with _ | u <;> simp

/-- Witness for C8 with a store lookup that finds nothing. -/
theorem session_resolution_fails_closed_witness :
    authUserHandler (deserializeUser (fun _ => .ok none) "sess1".data) = .unauthenticated :=
  (session_resolution_fails_closed (fun _ => .ok none) "sess1".data).1 rfl

/-! ## C7: role gates follow user < manager < admin -/

/-- **C7.** The admin-gated operations (`isAdmin` middleware) reject
principals with role `user` or `manager` with 403 and admit `admin`; the
manager-gated operation (`GET /api/sftp/files`) rejects role `user` with
403 and admits both `manager` and `admin` past its role check — the
total order `user < manager < admin`. -/
theorem role_gates_total_order (store : Store) (uid : List Char) (u : User)
    (h : getUser store uid = some u) :
    ((u.role = "user".data ∨ u.role = "manager".data) →
        isAdminGate store (some uid) = .forbidden)
      ∧ (u.role = "admin".data → isAdminGate store (some uid) = .next)
      ∧ (u.role = "user".data → sftpFilesHandler store uid = .forbidden)
      ∧ ((u.role = "manager".data ∨ u.role = "admin".data) →
          sftpFilesHandler store uid ≠ .forbidden) := by
  refine ⟨?_, ?_, ?_, ?_⟩
  · rintro (hr | hr) <;>
      (simp only [isAdminGate, h]; rw [hr, if_neg (by decide)])
  · intro hr
    simp only [isAdminGate, h]
    rw [hr, if_pos rfl]
  · intro hr
    simp only [sftpFilesHandler, h, Option.map_some']
    rw [hr, if_pos rfl]
  · rintro (hr | hr) <;>
      (simp only [sftpFilesHandler, h, Option.map_some']
       rw [hr, if_neg (by decide)]
       split <;> decide)

/-- Witness for C7: a manager is rejected by the admin gate but passes
the SFTP role check, an admin passes the admin gate. -/
theorem role_gates_total_order_witness :
    (isAdminGate [demoManager, demoAdmin] (some "m1".data) = .forbidden
        ∧ sftpFilesHandler [demoManager, demoAdmin] "m1".data ≠ .forbidden)
      ∧ isAdminGate [demoManager, demoAdmin] (some "a1".data) = .next :=
  ⟨⟨(role_gates_total_order [demoManager, demoAdmin] "m1".data demoManager
        (by decide)).1 (Or.inr (by decide)),
    (role_gates_total_order [demoManager, demoAdmin] "m1".data demoManager
        (by decide)).2.2.2 (Or.inl (by decide))⟩,
   (role_gates_total_order [demoManager, demoAdmin] "a1".data demoAdmin
        (by decide)).2.1 (by decide)⟩

/-! ## Persistence helper -/

/-- Upserting a record whose id is fresh appends it, and a `getUser`
lookup for that id then finds exactly that record. -/
theorem getUser_upsertUser_fresh (store : Store) (u : User)
    (hfresh : ∀ v ∈ store, v.id ≠ u.id) :
    getUser (upsertUser store u) u.id = some u := by
  unfold upsertUser getUser
  rw [if_neg, List.find?_append]
  · have h1 : (store.find? fun v => v.id = u.id) = none :=
      List.find?_eq_none.mpr (by
        intro x hx
        simpa using hfresh x hx)
    rw [h1]
    simp [List.find?]
  · simp only [List.any_eq_true, decide_eq_true_eq]
    rintro ⟨v, hv, hvid⟩
    exact hfresh v hv hvid

/-! ## C6: registration -/

/-- **C6.** Registration fails (400, duplicate) whenever some stored
account has the same lowercased email; otherwise it hashes the password,
persists a new Principal carrying the generated identifier with role
`"user"`, and the success response logs that very principal in
(registration implies login).  When the generated id is fresh, the new
record is subsequently found by `getUser`. -/
theorem register_spec (scryptFn : List Char → List Char → List Nat)
    (saltBytes : List Nat) (genId : List Char) (store : Store)
    (email password firstName lastName : List Char) :
    ((∃ u' ∈ store, toLowerStr u'.email = toLowerStr email) →
        registerHandler scryptFn saltBytes genId store email password firstName lastName
          = (.duplicate, store))
      ∧ (getUserByEmail store email = none →
          ∃ u, registerHandler scryptFn saltBytes genId store email password firstName lastName
              = (.success u, upsertUser store u)
            ∧ u.role = "user".data
            ∧ u.password = some (hashPassword scryptFn saltBytes password)
            ∧ u.id = genId ∧ u.email = email
            ∧ ((∀ v ∈ store, v.id ≠ genId) →
                getUser (upsertUser store u) genId = some u)) := by
  constructor
  · intro hex
    have hsome : (store.find? fun u => toLowerStr u.email = toLowerStr email).isSome := by
      rw [List.find?_isSome]
      simpa using hex
    rcases Option.isSome_iff_exists.mp hsome with ⟨u', hu'⟩
    have hlook : getUserByEmail store email = some u' := hu'
    simp only [registerHandler, hlook]
  · intro hnone
    refine ⟨{ id := genId, email := email, firstName := firstName, lastName := lastName,
              password := some (hashPassword scryptFn saltBytes password),
              role := "user".data, licenseType := [], privacyConsent := true,
              emailNotificationsEnabled := true, sftpHost := none, sftpUsername := none },
            ?_, rfl, rfl, rfl, rfl, ?_⟩
    · simp only [registerHandler, hnone]
    · intro hfresh
      exact getUser_upsertUser_fresh store _ hfresh

/-- Witness for C6: re-registering Alice's email (different case) is a
duplicate; registering a fresh email persists a `"user"`-role principal
with the hashed password. -/
theorem register_spec_witness :
    registerHandler constScrypt (List.replicate 16 7) "id2".data [demoAlice]
        "Alice@Example.COM".data "pw2".data "A".data "B".data = (.duplicate, [demoAlice])
      ∧ ∃ u, registerHandler constScrypt (List.replicate 16 7) "id2".data [demoAlice]
            "bob@example.com".data "pw2".data "Bob".data "B".data
          = (.success u, upsertUser [demoAlice] u)
        ∧ u.role = "user".data
        ∧ u.password = some (hashPassword constScrypt (List.replicate 16 7) "pw2".data)
        ∧ u.id = "id2".data ∧ u.email = "bob@example.com".data
        ∧ ((∀ v ∈ [demoAlice], v.id ≠ "id2".data) →
            getUser (upsertUser [demoAlice] u) "id2".data = some u) :=
  ⟨(register_spec constScrypt (List.replicate 16 7) "id2".data [demoAlice]
      "Alice@Example.COM".data "pw2".data "A".data "B".data).1
      ⟨demoAlice, by decide⟩,
   (register_spec constScrypt (List.replicate 16 7) "id2".data [demoAlice]
      "bob@example.com".data "pw2".data "Bob".data "B".data).2 (by decide)⟩

/-! ## C10: admin provisioning stores the plaintext password -/

/-- **C10.** The admin user-provisioning handler persists the generated
temporary password verbatim in the password field — the Credential
Hasher is not applied on this path. -/
theorem adminCreateUser_stores_plaintext (store : Store)
    (username email : List Char) (role licenseType : Option (List Char))
    (draws : List Nat) (hu : username ≠ []) (he : email ≠ [])
    (hfresh : getUser store username = none) :
    ∃ u, adminCreateUserHandler store (some username) (some email) role licenseType draws
        = (.created u, upsertUser store u)
      ∧ u.password = some (generateSecurePassword draws)
      ∧ u.id = username
      ∧ ((∀ v ∈ store, v.id ≠ username) →
          getUser (upsertUser store u) username = some u) := by
  have hA : jsTruthy (some username) = true := by
    simp [jsTruthy, hu]
  have hB : jsTruthy (some email) = true := by
    simp [jsTruthy, he]
  refine ⟨{ id := username
            email := email
            role := if jsTruthy role then role.getD [] else "user".data
            licenseType := if jsTruthy licenseType then licenseType.getD [] else "basic".data
            firstName := username
            lastName := []
            emailNotificationsEnabled := true
            password := some (generateSecurePassword draws)
            privacyConsent := false
            sftpHost := none
            sftpUsername := none },
          ?_, rfl, rfl, ?_⟩
  · simp only [adminCreateUserHandler, Option.getD_some, hA, hB, hfresh]
    simp
  · intro hfresh'
    exact getUser_upsertUser_fresh store _ hfresh'

/-- Witness for C10 at a concrete provisioning request. -/
theorem adminCreateUser_stores_plaintext_witness :
    ∃ u, adminCreateUserHandler [demoAlice] (some "carol".data)
        (some "carol@example.com".data) none none [0, 1, 2, 3, 4, 5, 6, 7, 8, 9, 10, 11]
        = (.created u, upsertUser [demoAlice] u)
      ∧ u.password = some (generateSecurePassword [0, 1, 2, 3, 4, 5, 6, 7, 8, 9, 10, 11])
      ∧ u.id = "carol".data
      ∧ ((∀ v ∈ [demoAlice], v.id ≠ "carol".data) →
          getUser (upsertUser [demoAlice] u) "carol".data = some u) :=
  adminCreateUser_stores_plaintext [demoAlice] "carol".data "carol@example.com".data
    none none [0, 1, 2, 3, 4, 5, 6, 7, 8, 9, 10, 11]
    (by decide) (by decide) (by decide)

/-! ## C1: reset tokens are not single-use -/

set_option maxRecDepth 32768 in
/-- **C1.** The reset-confirmation handler never verifies or consumes
the token: with an existing account, the first call succeeds and stores
the new hash, and the *second call with the very same token succeeds
again* instead of failing with `InvalidToken`; a never-issued token
(`"any-token"` here was never issued) is accepted as well. -/
theorem resetPassword_accepts_any_token_twice :
    (resetPasswordHandler constScrypt (List.replicate 16 7) [demoAlice]
        (some "alice@example.com".data) (some "newpass456".data)
        (some "any-token".data)).1 = .success
      ∧ (resetPasswordHandler constScrypt (List.replicate 16 7) [demoAlice]
          (some "alice@example.com".data) (some "newpass456".data)
          (some "any-token".data)).2
        = [{ demoAlice with
              password := some (hashPassword constScrypt (List.replicate 16 7)
                "newpass456".data) }]
      ∧ (resetPasswordHandler constScrypt (List.replicate 16 7)
          (resetPasswordHandler constScrypt (List.replicate 16 7) [demoAlice]
            (some "alice@example.com".data) (some "newpass456".data)
            (some "any-token".data)).2
          (some "alice@example.com".data) (some "newpass456".data)
          (some "any-token".data)).1 = .success := by
  refine ⟨rfl, by decide, rfl⟩

/-! ## C2: the forgot-password response reveals account existence -/

set_option maxRecDepth 32768 in
/-- **C2.** The forgot-password success responses for an existing and a
non-existing account share the same message and neither path writes to
storage, but the existing-account response *always* carries the
`resetToken` field (there is no production gate), while the
absent-account response does not — the responses are distinguishable,
contrary to the claim. -/
theorem forgotPassword_response_reveals_token :
    (forgotPasswordHandler [demoAlice] (some "alice@example.com".data)
        "tok123".data).1.resetToken = some "tok123".data
      ∧ (forgotPasswordHandler [demoAlice] (some "bob@example.com".data)
          "tok123".data).1.resetToken = none
      ∧ (forgotPasswordHandler [demoAlice] (some "alice@example.com".data)
            "tok123".data).1.message
        = (forgotPasswordHandler [demoAlice] (some "bob@example.com".data)
            "tok123".data).1.message
      ∧ (forgotPasswordHandler [demoAlice] (some "alice@example.com".data)
          "tok123".data).2 = [demoAlice]
      ∧ (forgotPasswordHandler [demoAlice] (some "bob@example.com".data)
          "tok123".data).2 = [demoAlice] := by
  refine ⟨rfl, by decide, by decide, rfl, by decide⟩

end BauStructura
